import Mathlib

/-!
Shallow embedding of the `wsl2` connection plugin
(`plugins/connection/wsl2.py`): the transport session that runs commands
through a local PowerShell binary, optionally wrapping them in a
remote-session script for a named Hyper-V virtual machine, and that
copies files either directly or through a remote copy script.

Byte strings are modelled as Lean `String`s (the plugin's `to_bytes` /
`to_text` conversions are identity on this abstraction).  The operating
system is modelled by a `World` record supplying the outcome of every
external call (`shutil.which`, `os.path.exists`, `pty.openpty`,
`subprocess.Popen` + `communicate`, the `wslpath` helper's stdout, and
the filesystem facts behind `shutil.copyfile`).  Each operation returns
the ordered list of externally visible events (process spawns, file
descriptor closes, file copies) next to its Python-level result.
-/

/-- How the child's stdin is wired in `subprocess.Popen`: a byte pipe
(`subprocess.PIPE`), the slave half of a pseudo-terminal, or the default
inherited descriptor (no `stdin=` argument, as in `put_file`). -/
inductive StdinKind where
  | pipe : StdinKind
  | ptyFd : Nat → StdinKind
  | inherit : StdinKind
deriving DecidableEq, Repr

/-- Externally visible side effects of one operation, in order. -/
inductive Event where
  /-- `subprocess.Popen(cmd, shell=True, executable=...)` on a byte-string
  command, i.e. a PowerShell invocation. -/
  | popenShell : String → String → StdinKind → Event
  /-- `subprocess.Popen(args)` on an argument list (the `wslpath` helper). -/
  | popenArgs : List String → Event
  /-- `os.close(fd)`. -/
  | closeFd : Nat → Event
  /-- `shutil.copyfile(src, dst)` attempt. -/
  | copyfile : String → String → Event
deriving DecidableEq, Repr

/-- Exceptions the plugin can raise (plus a raw `OSError` escaping from a
failed `subprocess.Popen`, which the plugin does not catch). -/
inductive Err where
  | ansibleError : String → Err
  | ansibleFileNotFound : String → Err
  | spawnOSError : Err
deriving DecidableEq, Repr

/-- Result of a completed child process: `returncode` and the two output
streams collected by `communicate`. -/
structure ProcOut where
  returncode : Int
  stdout : String
  stderr : String
deriving DecidableEq, Repr

/-- Everything `subprocess.Popen` + `communicate` is given for a
shell-string spawn: command bytes, `executable=`, the stdin wiring, the
`communicate` input and the working directory. -/
structure SpawnCall where
  cmd : String
  executable : String
  stdin : StdinKind
  in_data : Option String
  cwd : Option String
deriving DecidableEq, Repr

/-- Session configuration resolved by the host framework: the options the
plugin reads plus the `PlayContext` fields it uses.  `become` is `none`
when no become handler is set, `some b` when one is set and
`expect_prompt()` returns `b`. -/
structure Config where
  vm_name : Option String
  remote_user : String
  password : String
  pipelining : Bool
  become : Option Bool
  operation_timeout : Nat
  cwd : Option String

/-- The operating-system environment: outcomes of every external call the
plugin makes. -/
structure World where
  /-- Result of `shutil.which("powershell.exe")`. -/
  which_powershell : Option String
  /-- `os.path.exists` on a path. -/
  path_exists : String → Bool
  /-- `pty.openpty()`: `(master, slave)` descriptors, or an `OSError`. -/
  openpty : Except Unit (Nat × Nat)
  /-- A shell-string `subprocess.Popen` + `communicate`: the completed
  process, or an `OSError` raised by `Popen` itself. -/
  spawn : SpawnCall → Except Unit ProcOut
  /-- The stdout text produced by `wslpath -w <path>` (normally the
  translated path followed by a newline). -/
  wslpath_out : String → String
  /-- Whether two paths resolve to the same file (the check inside
  `shutil.copyfile` that raises `SameFileError`). -/
  samefile : String → String → Bool
  /-- An I/O error raised by `shutil.copyfile` for reasons other than the
  same-file check, if any. -/
  copy_io_error : String → String → Option String

/-- Python truthiness of `self.get_option("vm_name")`: set and non-empty. -/
def vmTruthy (cfg : Config) : Bool :=
  match cfg.vm_name with
  | none => false
  | some s => !s.isEmpty

/-- `shutil.which("powershell.exe") or "powershell.exe"`. -/
def resolveExe (w : World) : String :=
  w.which_powershell.getD "powershell.exe"

/-- The guard for pseudo-terminal allocation in `exec_command`:
`sudoable and self.become and self.become.expect_prompt() and not
self.get_option("pipelining")`. -/
def ptyWanted (cfg : Config) (sudoable : Bool) : Bool :=
  sudoable && cfg.become.getD false && !cfg.pipelining

/-- The `ENTER_VM` template, split at its four format placeholders.
Placeholder order in the template text: password, user, command, vm. -/
def evmSeg1 : String :=
  "\n# $WarningPreference = \x27SilentlyContinue\x27\n$secpass = ConvertTo-SecureString -AsPlainText -Force -String \x27"

def evmSeg2 : String :=
  "\x27\n$cred = [PSCredential]::new(\x27"

def evmSeg3 : String :=
  "\x27, $secpass)\n$exec_wrapper_str = $input | Out-String\n$cmd = [ScriptBlock]::Create(@\x27\n"

def evmSeg4 : String :=
  "\n\x27@)\n$s = New-PSSession -VMName \x27"

def evmSeg5 : String :=
  "\x27 -Credential $cred\nInvoke-Command -Session $s -InputObject $exec_wrapper_str -ScriptBlock $cmd\n$s | Remove-PSSession\n"

/-- `ENTER_VM.format(vm, user, password, cmd)`: positional substitution of
the four parameters into the remote-session script template. -/
def ENTER_VM_format (vm user password cmd : String) : String :=
  evmSeg1 ++ password ++ evmSeg2 ++ user ++ evmSeg3 ++ cmd ++ evmSeg4 ++ vm ++ evmSeg5

/-- The `COPY_FILE` template, split at its five format placeholders.
Placeholder order in the template text: password, user, vm, source,
destination. -/
def cfSeg1 : String :=
  "\n$secpass = ConvertTo-SecureString -AsPlainText -Force -String \x27"

def cfSeg2 : String :=
  "\x27\n$cred = [PSCredential]::new(\x27"

def cfSeg3 : String :=
  "\x27, $secpass)\n$s = New-PSSession -VMName \x27"

def cfSeg4 : String :=
  "\x27 -Credential $cred\nCopy-Item -ToSession $s -Path \x27"

def cfSeg5 : String :=
  "\x27 -Destination \x27"

def cfSeg6 : String :=
  "\x27\n$s | Remove-PSSession\n"

/-- `COPY_FILE.format(vm, user, password, src, dst)`. -/
def COPY_FILE_format (vm user password src dst : String) : String :=
  cfSeg1 ++ password ++ cfSeg2 ++ user ++ cfSeg3 ++ vm ++ cfSeg4 ++ src ++ cfSeg5 ++ dst ++ cfSeg6

/-- The command actually handed to `Popen` by `exec_command`: wrapped in
the `ENTER_VM` script when a virtual machine is configured, the caller's
command bytes otherwise. -/
def wrapCmd (cfg : Config) (cmd : String) : String :=
  if vmTruthy cfg then
    ENTER_VM_format (cfg.vm_name.getD "") cfg.remote_user cfg.password cmd
  else cmd

/-- The pty state after the allocation attempt: `(master, stdin wiring)`.
On `pty.openpty()` failure the exception is swallowed and the pipe is
kept. -/
def ptySetup (cfg : Config) (w : World) (sudoable : Bool) : Option Nat × StdinKind :=
  if ptyWanted cfg sudoable then
    match w.openpty with
    | Except.ok p => (some p.1, StdinKind.ptyFd p.2)
    | Except.error _ => (none, StdinKind.pipe)
  else (none, StdinKind.pipe)

/-- The descriptor closes performed after a successful spawn: the slave
half right after `Popen` (`if master is not None: os.close(stdin)`), the
master half after `communicate` (`if master: os.close(master)` — Python
truthiness, so a master descriptor equal to 0 would not be closed). -/
def ptyCloses (master : Option Nat) (sk : StdinKind) : List Event :=
  (match master, sk with
   | some _, StdinKind.ptyFd s => [Event.closeFd s]
   | _, _ => []) ++
  (match master with
   | some m => if m = 0 then [] else [Event.closeFd m]
   | none => [])

/-- `Connection.exec_command(cmd, in_data, sudoable)`: resolve the
PowerShell binary, fail if it does not exist, attempt pty allocation when
the become guard holds, wrap the command for a configured virtual
machine, spawn once, close the pty halves, and return
`(returncode, stdout, stderr)`. -/
def exec_command (cfg : Config) (w : World) (cmd : String)
    (in_data : Option String) (sudoable : Bool) :
    List Event × Except Err (Int × String × String) :=
  if w.path_exists (resolveExe w) then
    match w.spawn ⟨wrapCmd cfg cmd, resolveExe w, (ptySetup cfg w sudoable).2, in_data, cfg.cwd⟩ with
    | Except.error _ => ([], Except.error Err.spawnOSError)
    | Except.ok pr =>
        (Event.popenShell (wrapCmd cfg cmd) (resolveExe w) (ptySetup cfg w sudoable).2
           :: ptyCloses (ptySetup cfg w sudoable).1 (ptySetup cfg w sudoable).2,
         Except.ok (pr.returncode, pr.stdout, pr.stderr))
  else
    ([], Except.error (Err.ansibleError
      ("failed to find the executable specified " ++ resolveExe w
        ++ ". Please verify if the executable exists and re-try.")))

/-- `str.rstrip("\n")`: drop every trailing newline character. -/
def rstripNewlines (s : String) : String :=
  String.mk ((s.data.reverse.dropWhile (fun c => c = Char.ofNat 10)).reverse)

/-- `Connection.put_file(in_path, out_path)`: existence check, `wslpath`
translation of the source, then either the remote copy script (virtual
machine configured) or a direct `shutil.copyfile`. -/
def put_file (cfg : Config) (w : World) (in_path out_path : String) :
    List Event × Except Err Unit :=
  if w.path_exists in_path then
    match vmTruthy cfg with
    | true =>
        match w.spawn ⟨COPY_FILE_format (cfg.vm_name.getD "") cfg.remote_user cfg.password
            (rstripNewlines (w.wslpath_out in_path)) out_path,
            resolveExe w, StdinKind.inherit, none, cfg.cwd⟩ with
        | Except.error _ =>
            ([Event.popenArgs ["wslpath", "-w", in_path]], Except.error Err.spawnOSError)
        | Except.ok _ =>
            ([Event.popenArgs ["wslpath", "-w", in_path],
              Event.popenShell (COPY_FILE_format (cfg.vm_name.getD "") cfg.remote_user
                cfg.password (rstripNewlines (w.wslpath_out in_path)) out_path)
                (resolveExe w) StdinKind.inherit],
             Except.ok ())
    | false =>
        ([Event.popenArgs ["wslpath", "-w", in_path],
          Event.copyfile (w.wslpath_out in_path) out_path],
         if w.samefile (w.wslpath_out in_path) out_path then
           Except.error (Err.ansibleError
             ("failed to copy: " ++ w.wslpath_out in_path ++ " and " ++ out_path
               ++ " are the same"))
         else
           match w.copy_io_error (w.wslpath_out in_path) out_path with
           | some e => Except.error (Err.ansibleError
               ("failed to transfer file to " ++ out_path ++ ": " ++ e))
           | none => Except.ok ())
  else
    ([], Except.error (Err.ansibleFileNotFound
      ("file or module does not exist: " ++ in_path)))

/-- `Connection.fetch_file(in_path, out_path)`: after logging, a direct
delegation to `put_file` with the same argument order. -/
def fetch_file (cfg : Config) (w : World) (in_path out_path : String) :
    List Event × Except Err Unit :=
  put_file cfg w in_path out_path

/-- Whether an event is a child-process spawn. -/
def isSpawn : Event → Bool
  | Event.popenShell _ _ _ => true
  | Event.popenArgs _ => true
  | _ => false

/-- Whether an event is a file-descriptor close. -/
def isCloseFd : Event → Bool
  | Event.closeFd _ => true
  | _ => false

/-- The spawn events of a trace, in order. -/
def spawnEvents (evs : List Event) : List Event :=
  evs.filter isSpawn

/-- The shell-string commands spawned in a trace, in order. -/
def shellCmds (evs : List Event) : List String :=
  evs.filterMap (fun e =>
    match e with
    | Event.popenShell c _ _ => some c
    | _ => none)

/-- `needle` occurs contiguously inside `hay` (character lists). -/
def SubstrL (needle hay : List Char) : Prop :=
  ∃ a b, a ++ needle ++ b = hay

/-- `needle` occurs contiguously inside `hay` (strings). -/
def Substr (needle hay : String) : Prop :=
  SubstrL needle.data hay.data

theorem strData_append (a b : String) : (a ++ b).data = a.data ++ b.data := by
  cases a
  cases b
  rfl

/-- Bool check that `needle` is a prefix of `hay`. -/
def leadsWith : List Char → List Char → Bool
  | [], _ => true
  | _ :: _, [] => false
  | a :: as, b :: bs => a == b && leadsWith as bs

/-- Skip past the first occurrence of `needle` in `hay`, returning the
remainder after it, or `none` when `needle` does not occur. -/
def dropThrough (needle : List Char) : List Char → Option (List Char)
  | [] => if needle.isEmpty then some [] else none
  | c :: rest =>
      if leadsWith needle (c :: rest) then some ((c :: rest).drop needle.length)
      else dropThrough needle rest

/-- The given substrings occur in `hay` in the given relative order,
without overlapping. -/
def seqContains : List (List Char) → List Char → Bool
  | [], _ => true
  | n :: ns, hay =>
      match dropThrough n hay with
      | some rest => seqContains ns rest
      | none => false

theorem enterVM_substr_vm (vm u p c : String) :
    Substr vm (ENTER_VM_format vm u p c) := by
  unfold Substr ENTER_VM_format
  refine ⟨(evmSeg1 ++ p ++ evmSeg2 ++ u ++ evmSeg3 ++ c ++ evmSeg4).data, evmSeg5.data, ?_⟩
  simp [strData_append, List.append_assoc]

theorem enterVM_substr_user (vm u p c : String) :
    Substr u (ENTER_VM_format vm u p c) := by
  unfold Substr ENTER_VM_format
  refine ⟨(evmSeg1 ++ p ++ evmSeg2).data,
    (evmSeg3 ++ c ++ evmSeg4 ++ vm ++ evmSeg5).data, ?_⟩
  simp [strData_append, List.append_assoc]

theorem enterVM_substr_cmd (vm u p c : String) :
    Substr c (ENTER_VM_format vm u p c) := by
  unfold Substr ENTER_VM_format
  refine ⟨(evmSeg1 ++ p ++ evmSeg2 ++ u ++ evmSeg3).data,
    (evmSeg4 ++ vm ++ evmSeg5).data, ?_⟩
  simp [strData_append, List.append_assoc]

theorem filter_isSpawn_ptyCloses (mo : Option Nat) (sk : StdinKind) :
    (ptyCloses mo sk).filter isSpawn = [] := by
  cases mo with
  | none => cases sk <;> rfl
  | some m =>
      by_cases hm : m = 0 <;> cases sk <;>
        simp [ptyCloses, isSpawn, hm, List.filter_append]

theorem exec_spawn_of_ok (cfg : Config) (w : World) (cmd : String)
    (in_data : Option String) (sudoable : Bool) (evs : List Event)
    (r : Int × String × String)
    (h : exec_command cfg w cmd in_data sudoable = (evs, Except.ok r)) :
    spawnEvents evs
      = [Event.popenShell (wrapCmd cfg cmd) (resolveExe w) (ptySetup cfg w sudoable).2] := by
  unfold exec_command at h
  by_cases hpe : w.path_exists (resolveExe w) = true
  · rw [if_pos hpe] at h
    cases hsp : w.spawn ⟨wrapCmd cfg cmd, resolveExe w, (ptySetup cfg w sudoable).2, in_data, cfg.cwd⟩ with
    | error e => rw [hsp] at h; simp at h
    | ok pr =>
        rw [hsp] at h
        have hevs : evs
            = Event.popenShell (wrapCmd cfg cmd) (resolveExe w) (ptySetup cfg w sudoable).2
              :: ptyCloses (ptySetup cfg w sudoable).1 (ptySetup cfg w sudoable).2 := by
          have h1 := congrArg Prod.fst h
          simpa using h1.symm
        rw [hevs]
        simp [spawnEvents, List.filter_cons, isSpawn, filter_isSpawn_ptyCloses]
  · rw [if_neg hpe] at h
    simp at h

/-- A completed benign child process. -/
def pr0 : ProcOut := ⟨0, "", ""⟩

/-- A cooperative operating system: the shell exists, every path exists,
pty allocation fails, every spawn succeeds with `pr0`, `wslpath` appends
a newline, paths are the same file exactly when equal, and no other copy
error occurs. -/
def w0 : World where
  which_powershell := some "powershell.exe"
  path_exists := fun _ => true
  openpty := Except.error ()
  spawn := fun _ => Except.ok pr0
  wslpath_out := fun p => p ++ "\n"
  samefile := fun a b => a == b
  copy_io_error := fun _ _ => none

/-- A session with no virtual machine configured and no become handler. -/
def cfg0 : Config where
  vm_name := none
  remote_user := "user"
  password := "secret"
  pipelining := false
  become := none
  operation_timeout := 20
  cwd := none

/-- C1: with no virtual-machine target configured, a completed
`exec_command` spawns exactly one child process, and its command argument
is the caller's command itself, with no script wrapping. -/
theorem C1_no_vm_single_direct_spawn (cfg : Config) (w : World) (cmd : String)
    (in_data : Option String) (sudoable : Bool) (evs : List Event)
    (r : Int × String × String)
    (hvm : vmTruthy cfg = false)
    (h : exec_command cfg w cmd in_data sudoable = (evs, Except.ok r)) :
    ∃ sk, spawnEvents evs = [Event.popenShell cmd (resolveExe w) sk] := by
  have hs := exec_spawn_of_ok cfg w cmd in_data sudoable evs r h
  rw [wrapCmd, if_neg (by simp [hvm])] at hs
  exact ⟨_, hs⟩

theorem C1_witness :
    vmTruthy cfg0 = false ∧
    (∃ sk, spawnEvents [Event.popenShell "dir" "powershell.exe" StdinKind.pipe]
        = [Event.popenShell "dir" (resolveExe w0) sk]) :=
  ⟨rfl, C1_no_vm_single_direct_spawn cfg0 w0 "dir" none true
    [Event.popenShell "dir" "powershell.exe" StdinKind.pipe] (0, "", "") rfl rfl⟩

/-- A session targeting the virtual machine "myvm" as user "bob" with
password "pw". -/
def cfg3 : Config :=
  { cfg0 with vm_name := some "myvm", remote_user := "bob", password := "pw" }

/-- C2: with a virtual machine configured, a completed `exec_command`
spawns the composed remote-session script, and that script contains the
virtual-machine name, the configured user, and the command verbatim as
substrings. -/
theorem C2_vm_wrapped_spawn (cfg : Config) (w : World) (cmd : String)
    (in_data : Option String) (sudoable : Bool) (v : String)
    (evs : List Event) (r : Int × String × String)
    (hv : cfg.vm_name = some v) (hne : v.isEmpty = false)
    (h : exec_command cfg w cmd in_data sudoable = (evs, Except.ok r)) :
    ∃ sk, spawnEvents evs
        = [Event.popenShell (ENTER_VM_format v cfg.remote_user cfg.password cmd)
            (resolveExe w) sk]
      ∧ Substr v (ENTER_VM_format v cfg.remote_user cfg.password cmd)
      ∧ Substr cfg.remote_user (ENTER_VM_format v cfg.remote_user cfg.password cmd)
      ∧ Substr cmd (ENTER_VM_format v cfg.remote_user cfg.password cmd) := by
  have hs := exec_spawn_of_ok cfg w cmd in_data sudoable evs r h
  have hw : wrapCmd cfg cmd = ENTER_VM_format v cfg.remote_user cfg.password cmd := by
    simp [wrapCmd, vmTruthy, hv, hne]
  rw [hw] at hs
  exact ⟨_, hs, enterVM_substr_vm v cfg.remote_user cfg.password cmd,
    enterVM_substr_user v cfg.remote_user cfg.password cmd,
    enterVM_substr_cmd v cfg.remote_user cfg.password cmd⟩

theorem C2_witness :
    cfg3.vm_name = some "myvm" ∧ ("myvm").isEmpty = false ∧
    (∃ sk, spawnEvents
        [Event.popenShell (ENTER_VM_format "myvm" "bob" "pw" "dir") "powershell.exe"
          StdinKind.pipe]
        = [Event.popenShell (ENTER_VM_format "myvm" cfg3.remote_user cfg3.password "dir")
            (resolveExe w0) sk]
      ∧ Substr "myvm" (ENTER_VM_format "myvm" cfg3.remote_user cfg3.password "dir")
      ∧ Substr cfg3.remote_user (ENTER_VM_format "myvm" cfg3.remote_user cfg3.password "dir")
      ∧ Substr "dir" (ENTER_VM_format "myvm" cfg3.remote_user cfg3.password "dir")) :=
  ⟨rfl, rfl, C2_vm_wrapped_spawn cfg3 w0 "dir" none true "myvm"
    [Event.popenShell (ENTER_VM_format "myvm" "bob" "pw" "dir") "powershell.exe"
      StdinKind.pipe] (0, "", "") rfl rfl rfl⟩

/-- The script composed by `exec_command` in the C3 scenario. -/
def script3 : String := ENTER_VM_format "myvm" "bob" "pw" "dir"

set_option maxRecDepth 16384

/-- C3 (counterexample): in the scenario with vm "myvm", user "bob",
password "pw", command "dir", the script spawned by `exec_command` does
NOT contain "myvm", "bob", "pw", "dir" in that relative order — the
vm name appears after the other three in the template. -/
theorem C3_counterexample :
    shellCmds (exec_command cfg3 w0 "dir" none true).1 = [script3] ∧
    seqContains ["myvm".data, "bob".data, "pw".data, "dir".data] script3.data = false :=
  ⟨rfl, by decide⟩

/-- C3 (amended): in that scenario the composed script contains "pw",
"bob", "dir" and "myvm" — in that relative order. -/
theorem C3_amended_order :
    shellCmds (exec_command cfg3 w0 "dir" none true).1 = [script3] ∧
    seqContains ["pw".data, "bob".data, "dir".data, "myvm".data] script3.data = true :=
  ⟨rfl, by decide⟩

/-- C4: when the source path does not exist, `put_file` raises the
file-not-found error with an empty trace — no child process is spawned
before the error. -/
theorem C4_missing_source_no_spawn (cfg : Config) (w : World) (in_path out_path : String)
    (h : w.path_exists in_path = false) :
    put_file cfg w in_path out_path
      = ([], Except.error (Err.ansibleFileNotFound
          ("file or module does not exist: " ++ in_path))) := by
  unfold put_file
  rw [if_neg (by simp [h])]

/-- A world in which no path exists. -/
def w_missing : World := { w0 with path_exists := fun _ => false }

theorem C4_witness :
    w_missing.path_exists "/tmp/missing" = false ∧
    put_file cfg0 w_missing "/tmp/missing" "/tmp/out"
      = ([], Except.error (Err.ansibleFileNotFound
          ("file or module does not exist: " ++ "/tmp/missing"))) :=
  ⟨rfl, C4_missing_source_no_spawn cfg0 w_missing "/tmp/missing" "/tmp/out" rfl⟩

/-- C5: on the direct-copy path (no virtual machine), when the translated
source and the destination resolve to the same file, `put_file` fails with
the same-file error. -/
theorem C5_direct_same_file_error (cfg : Config) (w : World) (in_path out_path : String)
    (hvm : vmTruthy cfg = false)
    (hex : w.path_exists in_path = true)
    (hsame : w.samefile (w.wslpath_out in_path) out_path = true) :
    (put_file cfg w in_path out_path).2
      = Except.error (Err.ansibleError
          ("failed to copy: " ++ w.wslpath_out in_path ++ " and " ++ out_path
            ++ " are the same")) := by
  simp [put_file, hvm, hex, hsame]

theorem C5_witness :
    vmTruthy cfg0 = false ∧ w0.path_exists "/tmp/f" = true ∧
    w0.samefile (w0.wslpath_out "/tmp/f") "/tmp/f\n" = true ∧
    (put_file cfg0 w0 "/tmp/f" "/tmp/f\n").2
      = Except.error (Err.ansibleError
          ("failed to copy: " ++ w0.wslpath_out "/tmp/f" ++ " and " ++ "/tmp/f\n"
            ++ " are the same")) :=
  ⟨rfl, rfl, rfl, C5_direct_same_file_error cfg0 w0 "/tmp/f" "/tmp/f\n" rfl rfl rfl⟩

/-- C6: when pty allocation is attempted and fails, `exec_command` does
not raise: it proceeds with a plain pipe as the child's stdin and still
returns the `(returncode, stdout, stderr)` triple. -/
theorem C6_pty_failure_degrades_to_pipe (cfg : Config) (w : World) (cmd : String)
    (in_data : Option String) (pr : ProcOut)
    (hwant : ptyWanted cfg true = true)
    (hpty : w.openpty = Except.error ())
    (hex : w.path_exists (resolveExe w) = true)
    (hsp : w.spawn ⟨wrapCmd cfg cmd, resolveExe w, StdinKind.pipe, in_data, cfg.cwd⟩
      = Except.ok pr) :
    exec_command cfg w cmd in_data true
      = ([Event.popenShell (wrapCmd cfg cmd) (resolveExe w) StdinKind.pipe],
         Except.ok (pr.returncode, pr.stdout, pr.stderr)) := by
  have hms : ptySetup cfg w true = (none, StdinKind.pipe) := by
    simp [ptySetup, hwant, hpty]
  simp [exec_command, hex, hms, hsp, ptyCloses]

/-- A session whose become handler expects a prompt. -/
def cfg6 : Config := { cfg0 with become := some true }

theorem C6_witness :
    ptyWanted cfg6 true = true ∧ w0.openpty = Except.error () ∧
    w0.path_exists (resolveExe w0) = true ∧
    w0.spawn ⟨wrapCmd cfg6 "dir", resolveExe w0, StdinKind.pipe, none, cfg6.cwd⟩
      = Except.ok pr0 ∧
    exec_command cfg6 w0 "dir" none true
      = ([Event.popenShell (wrapCmd cfg6 "dir") (resolveExe w0) StdinKind.pipe],
         Except.ok (pr0.returncode, pr0.stdout, pr0.stderr)) :=
  ⟨rfl, rfl, rfl, rfl, C6_pty_failure_degrades_to_pipe cfg6 w0 "dir" none pr0 rfl rfl rfl rfl⟩

/-- A world where pty allocation returns `(master, slave) = (3, 4)` and
every `Popen` raises. -/
def w7 : World := { w0 with openpty := Except.ok (3, 4), spawn := fun _ => Except.error () }

/-- C7 (counterexample): with a pty allocated and `subprocess.Popen`
raising, the exception propagates and neither pty half is closed — the
trace holds no descriptor close, refuting release on the
child-spawn-failure path. -/
theorem C7_counterexample :
    w7.openpty = Except.ok (3, 4) ∧
    ptyWanted cfg6 true = true ∧
    (exec_command cfg6 w7 "dir" none true).1.filter isCloseFd = [] ∧
    (exec_command cfg6 w7 "dir" none true).2 = Except.error Err.spawnOSError :=
  ⟨rfl, rfl, rfl, rfl⟩

/-- C7 (amended): when a pty is allocated and the child spawn succeeds,
the slave half is closed immediately after the spawn and the master half
after the child exits, provided the master descriptor is nonzero; when
the spawn fails the exception propagates before any close. -/
theorem C7_amended_closes_on_success (cfg : Config) (w : World) (cmd : String)
    (in_data : Option String) (m s : Nat) (pr : ProcOut)
    (hm : m ≠ 0)
    (hwant : ptyWanted cfg true = true)
    (hpty : w.openpty = Except.ok (m, s))
    (hex : w.path_exists (resolveExe w) = true)
    (hsp : w.spawn ⟨wrapCmd cfg cmd, resolveExe w, StdinKind.ptyFd s, in_data, cfg.cwd⟩
      = Except.ok pr) :
    exec_command cfg w cmd in_data true
      = ([Event.popenShell (wrapCmd cfg cmd) (resolveExe w) (StdinKind.ptyFd s),
          Event.closeFd s, Event.closeFd m],
         Except.ok (pr.returncode, pr.stdout, pr.stderr)) := by
  have hms : ptySetup cfg w true = (some m, StdinKind.ptyFd s) := by
    simp [ptySetup, hwant, hpty]
  simp [exec_command, hex, hms, hsp, ptyCloses, hm]

/-- A world where pty allocation returns `(3, 4)` and spawns succeed. -/
def w7ok : World := { w0 with openpty := Except.ok (3, 4) }

theorem C7_witness :
    (3 : Nat) ≠ 0 ∧ ptyWanted cfg6 true = true ∧
    w7ok.openpty = Except.ok (3, 4) ∧
    w7ok.path_exists (resolveExe w7ok) = true ∧
    w7ok.spawn ⟨wrapCmd cfg6 "dir", resolveExe w7ok, StdinKind.ptyFd 4, none, cfg6.cwd⟩
      = Except.ok pr0 ∧
    exec_command cfg6 w7ok "dir" none true
      = ([Event.popenShell (wrapCmd cfg6 "dir") (resolveExe w7ok) (StdinKind.ptyFd 4),
          Event.closeFd 4, Event.closeFd 3],
         Except.ok (pr0.returncode, pr0.stdout, pr0.stderr)) :=
  ⟨by decide, rfl, rfl, rfl, rfl,
    C7_amended_closes_on_success cfg6 w7ok "dir" none 3 4 pr0 (by decide) rfl rfl rfl rfl⟩

/-- C8: `fetch_file` is a direct delegation to `put_file` with the same
argument order, so both produce identical spawn/copy behavior for the
same arguments. -/
theorem C8_fetch_eq_put (cfg : Config) (w : World) (a b : String) :
    fetch_file cfg w a b = put_file cfg w a b := rfl

/-- C9: the configured `operation_timeout` has no effect: two runs whose
configurations differ only in that option produce identical traces and
results for both `exec_command` and `put_file`. -/
theorem C9_timeout_unused (cfg : Config) (t : Nat) (w : World) (cmd : String)
    (in_data : Option String) (sudoable : Bool) (a b : String) :
    exec_command { cfg with operation_timeout := t } w cmd in_data sudoable
        = exec_command cfg w cmd in_data sudoable ∧
      put_file { cfg with operation_timeout := t } w a b = put_file cfg w a b :=
  ⟨rfl, rfl⟩

/-- C10: past the existence check, the source actually used is the
`wslpath` stdout: on the virtual-machine path its trailing newlines are
stripped before being embedded in the copy script, while the direct copy
uses the translated text as-is, trailing newline included. -/
theorem C10_translated_source (cfg : Config) (w : World) (in_path out_path : String)
    (hex : w.path_exists in_path = true) :
    (vmTruthy cfg = false →
      (put_file cfg w in_path out_path).1
        = [Event.popenArgs ["wslpath", "-w", in_path],
           Event.copyfile (w.wslpath_out in_path) out_path]) ∧
    (vmTruthy cfg = true → ∀ pr,
      w.spawn ⟨COPY_FILE_format (cfg.vm_name.getD "") cfg.remote_user cfg.password
          (rstripNewlines (w.wslpath_out in_path)) out_path,
          resolveExe w, StdinKind.inherit, none, cfg.cwd⟩ = Except.ok pr →
      (put_file cfg w in_path out_path).1
        = [Event.popenArgs ["wslpath", "-w", in_path],
           Event.popenShell (COPY_FILE_format (cfg.vm_name.getD "") cfg.remote_user
             cfg.password (rstripNewlines (w.wslpath_out in_path)) out_path)
             (resolveExe w) StdinKind.inherit]) := by
  constructor
  · intro hvm
    simp [put_file, hex, hvm]
  · intro hvm pr hsp
    simp [put_file, hex, hvm, hsp]

theorem C10_witness :
    w0.path_exists "/a" = true ∧
    ((vmTruthy cfg0 = false →
      (put_file cfg0 w0 "/a" "/b").1
        = [Event.popenArgs ["wslpath", "-w", "/a"],
           Event.copyfile (w0.wslpath_out "/a") "/b"]) ∧
     (vmTruthy cfg0 = true → ∀ pr,
      w0.spawn ⟨COPY_FILE_format (cfg0.vm_name.getD "") cfg0.remote_user cfg0.password
          (rstripNewlines (w0.wslpath_out "/a")) "/b",
          resolveExe w0, StdinKind.inherit, none, cfg0.cwd⟩ = Except.ok pr →
      (put_file cfg0 w0 "/a" "/b").1
        = [Event.popenArgs ["wslpath", "-w", "/a"],
           Event.popenShell (COPY_FILE_format (cfg0.vm_name.getD "") cfg0.remote_user
             cfg0.password (rstripNewlines (w0.wslpath_out "/a")) "/b")
             (resolveExe w0) StdinKind.inherit])) :=
  ⟨rfl, C10_translated_source cfg0 w0 "/a" "/b" rfl⟩
